import Mathlib

/-!
Verification development for the session & snapshot continuity layer of the
`mcp-server-browserbase` repository.

The TypeScript sources are shallowly embedded as Lean definitions:

* `PageSnapshot` (packages/core/src/context.ts, class `PageSnapshot`):
  the accessibility-tree snapshot model with frame-reference resolution,
  serialization (`serialize` / `fromSerialized`), `reconnect`,
  `needsReconnection`, `refLocator`, and the recursive capture
  (`create` / `_snapshotFrame`).
* `Context` (packages/core/src/context.ts, class `Context`): per-session
  execution state (`currentSessionId`, `latestSnapshots`) and the tool-run
  orchestration `Context.run`, embedded as the pure state-passing function
  `runTool`.  Async environment behavior (`getSession`, page liveness,
  URL/title queries, action outcomes) is passed in explicitly as oracles.
* `saveCtx` (packages/remote/lib/redis.ts): the optimistic-concurrency
  merge performed by one successful save, embedded as the pure merge
  `saveCtxMerge` over an already-parsed stored hash.

Machine strings are Lean `String`s; JavaScript `Map`s are association lists
keyed by session id; fallible operations return `Except`/`Option`.
-/

/-- YAML node model: the parsed form of the strings produced by the driver's
`ariaSnapshot` primitive, mirroring the `yaml` library's scalar / pair /
seq / map documents that `_snapshotFrame` walks. -/
inductive YNode where
  | scalar (value : String)
  | pair (key : YNode) (value : YNode)
  | seq (items : List YNode)
  | map (items : List YNode)
deriving Repr

/-- Model of a live frame (a Playwright `Page` or `FrameLocator`): what its
`ariaSnapshot` call yields (`Except.error` models the call rejecting;
`Option.none` models a document with null contents), and its child frames
reachable through `frameLocator("aria-ref=<ref>")`, keyed by the local ref.
An entry `(ref, none)` models `frameLocator` throwing for that ref. -/
inductive LiveFrame where
  | mk (ariaResult : Except String (Option YNode)) (children : List (String × Option LiveFrame))

/-- Accessor for the `ariaSnapshot` outcome of a live frame. -/
def LiveFrame.ariaResult : LiveFrame → Except String (Option YNode)
  | .mk a _ => a

/-- Accessor for the child-frame table of a live frame. -/
def LiveFrame.children : LiveFrame → List (String × Option LiveFrame)
  | .mk _ c => c

/-- Resolution of `frame.frameLocator("aria-ref=" ++ ref)` in the model:
`none` when the ref names no child at all, `some none` when the locator
call throws, `some (some c)` when it yields child frame `c`. -/
def lookupChild : List (String × Option LiveFrame) → String → Option (Option LiveFrame)
  | [], _ => none
  | (k, v) :: rest, r => if k = r then some v else lookupChild rest r

/-- A resolved locator, the value `refLocator` returns: the frame handle the
lookup was delegated to together with the `aria-ref=` selector built from
the local part of the reference. -/
structure Locator where
  frame : LiveFrame
  selector : String

/-- The `PageSnapshot` data: `_text`, `_frameLocators` and `_isDisconnected`
from the source class. -/
structure PageSnapshot where
  text : String
  frameLocators : List LiveFrame
  isDisconnected : Bool

/-- JSON string-body escaping as performed by `JSON.stringify` on the `text`
field (quote, backslash and the common control characters; other characters
pass through unchanged). -/
def jsonEscape : List Char → List Char
  | [] => []
  | c :: cs =>
    (if c = '"' then ['\\', '"']
     else if c = '\\' then ['\\', '\\']
     else if c = '\n' then ['\\', 'n']
     else if c = '\t' then ['\\', 't']
     else if c = '\r' then ['\\', 'r']
     else [c]) ++ jsonEscape cs

/-- Inverse of one escape character. -/
def jsonUnescape (c : Char) : Option Char :=
  if c = '"' then some '"'
  else if c = '\\' then some '\\'
  else if c = 'n' then some '\n'
  else if c = 't' then some '\t'
  else if c = 'r' then some '\r'
  else none

/-- Parser for a JSON string body (after the opening quote): returns the
decoded characters and the remainder after the closing quote, or `none`
for malformed input. -/
def parseJStr : List Char → Option (List Char × List Char)
  | [] => none
  | '"' :: cs => some ([], cs)
  | '\\' :: [] => none
  | '\\' :: e :: cs =>
    match jsonUnescape e with
    | none => none
    | some u =>
      match parseJStr cs with
      | none => none
      | some (s, r) => some (u :: s, r)
  | c :: cs =>
    match parseJStr cs with
    | none => none
    | some (s, r) => some (c :: s, r)

/-- The `serialize` method: `JSON.stringify({ text: this._text })`. -/
def PageSnapshot.serialize (s : PageSnapshot) : String :=
  String.mk ('\x7b' :: '"' :: 't' :: 'e' :: 'x' :: 't' :: '"' :: ':' :: '"' ::
    (jsonEscape s.text.data ++ '"' :: '\x7d' :: []))

/-- Character-level parse of a serialized snapshot: accepts exactly the JSON
object shape `serialize` emits and returns its `text` payload. `JSON.parse`
rejecting, or the parsed value lacking a string `text` field, are both
modeled by `none`. -/
def parseSerialized : List Char → Option String
  | '\x7b' :: '"' :: 't' :: 'e' :: 'x' :: 't' :: '"' :: ':' :: '"' :: rest =>
    match parseJStr rest with
    | some (s, ['\x7d']) => some (String.mk s)
    | _ => none
  | _ => none

/-- The static `fromSerialized` method: parse the stored string; on success
build a snapshot carrying only the text, with no frame locators and the
disconnected flag set; on any malformed input return `none` (the source
catches the parse error and returns `null`). -/
def PageSnapshot.fromSerialized (serializedData : String) : Option PageSnapshot :=
  match parseSerialized serializedData.data with
  | some t => some { text := t, frameLocators := [], isDisconnected := true }
  | none => none

/-- The `reconnect` method: install the given live page as the sole frame
locator (frame index 0) and clear the disconnected flag. -/
def PageSnapshot.reconnect (s : PageSnapshot) (page : LiveFrame) : PageSnapshot :=
  { s with frameLocators := [page], isDisconnected := false }

/-- The `needsReconnection` method. -/
def PageSnapshot.needsReconnection (s : PageSnapshot) : Bool :=
  s.isDisconnected || s.frameLocators.length == 0

/-- Digit-string to number, as `parseInt(digits, 10)` computes on the match
of `(\d+)`. -/
def digitsToNat (ds : List Char) : Nat :=
  ds.foldl (fun n c => n * 10 + (c.toNat - 48)) 0

/-- Restriction of a character list to its first line, reflecting that `.`
in the JavaScript regex `/^f(\d+)(.*)/` does not match line terminators. -/
def firstLine (l : List Char) : List Char :=
  l.takeWhile (fun c => c != '\n' && c != '\r')

/-- The parse of `ref.match(/^f(\d+)(.*)/)` at the top of `refLocator`: an
optional `f<N>` prefix yields frame index `N` and the rest of the line as
the local ref; otherwise the frame index defaults to `0` and the whole ref
is local. -/
def parseFrameRef (ref : String) : Nat × String :=
  match ref.data with
  | 'f' :: rest =>
    let ds := rest.takeWhile Char.isDigit
    if ds.isEmpty then (0, ref)
    else (digitsToNat ds, String.mk (firstLine (rest.drop ds.length)))
  | _ => (0, ref)

/-- The `refLocator` method: parse the optional `f<N>` prefix, fail if the
snapshot is disconnected, if the frame-locator list is empty, or if the
index is out of bounds; otherwise delegate to the selected frame's
`locator("aria-ref=" ++ targetRef)`. -/
def PageSnapshot.refLocator (s : PageSnapshot) (ref : String) : Except String Locator :=
  let frameIndex := (parseFrameRef ref).1
  let targetRef := (parseFrameRef ref).2
  if s.isDisconnected then
    .error "Snapshot is disconnected. Call reconnect() with a live page before using refLocator."
  else if s.frameLocators.length = 0 then
    .error ("Frame locators not initialized. Cannot find frame for ref '" ++ ref ++ "'.")
  else if s.frameLocators.length ≤ frameIndex then
    .error ("Validation Error: Frame index " ++ toString frameIndex ++ " derived from ref '" ++
      ref ++ "' is out of bounds (found " ++ toString s.frameLocators.length ++ " frames).")
  else
    match s.frameLocators[frameIndex]? with
    | some frame => .ok { frame := frame, selector := "aria-ref=" ++ targetRef }
    | none =>
      .error ("Frame (index " ++ toString frameIndex ++
        ") could not be determined. Provide ref from the most current snapshot.")

/-- Boolean prefix test on character lists (the anchored part of a string
search, as in `String.prototype.replace` with a string pattern). -/
def leadsWith : List Char → List Char → Bool
  | [], _ => true
  | _ :: _, [] => false
  | p :: ps, c :: cs => p == c && leadsWith ps cs

/-- `value.replace(pat, repl)` with a string pattern: replace the first
occurrence only. -/
def replaceFirstChars (pat repl : List Char) : List Char → List Char
  | [] => []
  | c :: cs =>
    if leadsWith pat (c :: cs) then repl ++ (c :: cs).drop pat.length
    else c :: replaceFirstChars pat repl cs

/-- String wrapper for `replaceFirstChars`. -/
def replaceFirst (s pat repl : String) : String :=
  String.mk (replaceFirstChars pat.data repl.data s.data)

/-- Suffix after the first occurrence of `pat`, or `none` if absent. -/
def afterPat (pat : List Char) : List Char → Option (List Char)
  | [] => none
  | c :: cs =>
    if leadsWith pat (c :: cs) then some ((c :: cs).drop pat.length)
    else afterPat pat cs

/-- Capture up to the last `]` on the current line, the greedy group of
`/\[ref=(.*)\]/`. -/
def takeToLastClose (l : List Char) : Option (List Char) :=
  match (firstLine l).reverse.dropWhile (fun c => c != ']') with
  | [] => none
  | _ :: rest => some rest.reverse

/-- The capture of `value.match(/\[ref=(.*)\]/)?.[1]`: the text between the
first `[ref=` and the last `]` on its line. -/
def extractRef (s : String) : Option String :=
  match afterPat "[ref=".data s.data with
  | none => none
  | some rest => (takeToLastClose rest).map String.mk

/-- A child frame found in the child table is smaller than the table. -/
theorem lookupChild_sizeOf {cs : List (String × Option LiveFrame)} {r : String}
    {c : LiveFrame} (h : lookupChild cs r = some (some c)) : sizeOf c < sizeOf cs := by
  induction cs with
  | nil => simp [lookupChild] at h
  | cons p rest ih =>
    obtain ⟨k, v⟩ := p
    by_cases hk : k = r
    · simp [lookupChild, hk] at h
      subst h
      simp
      omega
    · simp [lookupChild, hk] at h
      have := ih h
      simp
      omega

/-- The child table of a frame is smaller than the frame. -/
theorem children_sizeOf (f : LiveFrame) : sizeOf f.children < sizeOf f := by
  cases f with
  | mk a c =>
    simp [LiveFrame.children]

mutual
def snapshotFrame (locs : List LiveFrame) (frame : LiveFrame) :
    List LiveFrame × YNode :=
  let frameIndex := locs.length
  let locs1 := locs ++ [frame]
  match frame.ariaResult with
  | .error e =>
    visitNode frame frameIndex locs1 (.scalar ("error: Could not take snapshot. Error: " ++ e))
  | .ok none => (locs1, .map [])
  | .ok (some doc) => visitNode frame frameIndex locs1 doc
termination_by (sizeOf frame, 1, 0)
decreasing_by
  all_goals simp_wf
  all_goals first
    | exact Prod.Lex.left _ _ (lt_trans (lookupChild_sizeOf h) (children_sizeOf frame))
    | exact Prod.Lex.right _ (Prod.Lex.left _ _ (by omega))
    | exact Prod.Lex.right _ (Prod.Lex.right _ (by omega))

def visitNode (frame : LiveFrame) (frameIndex : Nat) (locs : List LiveFrame) :
    YNode → List LiveFrame × YNode
  | .scalar value =>
    let newValue :=
      if frameIndex > 0 then replaceFirst value "[ref=" ("[ref=f" ++ toString frameIndex)
      else value
    if leadsWith "iframe ".data value.data then
      match extractRef value with
      | some r =>
        match h : lookupChild frame.children r with
        | some (some child) =>
          let res := snapshotFrame locs child
          (res.1, .pair (.scalar newValue) res.2)
        | some none =>
          (locs, .pair (.scalar newValue) (.scalar "<could not take iframe snapshot>"))
        | none =>
          (locs ++ [LiveFrame.mk (.error "frame not found") []],
           .pair (.scalar newValue) (.scalar "error: Could not take snapshot. Error: frame not found"))
      | none => (locs, .scalar newValue)
    else (locs, .scalar newValue)
  | .pair k v =>
    let rk := visitNode frame frameIndex locs k
    let rv := visitNode frame frameIndex rk.1 v
    (rv.1, .pair rk.2 rv.2)
  | .seq items =>
    let r := visitList frame frameIndex locs items
    (r.1, .seq r.2)
  | .map items =>
    let r := visitList frame frameIndex locs items
    (r.1, .map r.2)
termination_by n => (sizeOf frame, 0, sizeOf n)
decreasing_by
  all_goals simp_wf
  all_goals first
    | exact Prod.Lex.left _ _ (lt_trans (lookupChild_sizeOf h) (children_sizeOf frame))
    | exact Prod.Lex.right _ (Prod.Lex.left _ _ (by omega))
    | exact Prod.Lex.right _ (Prod.Lex.right _ (by omega))

def visitList (frame : LiveFrame) (frameIndex : Nat) (locs : List LiveFrame) :
    List YNode → List LiveFrame × List YNode
  | [] => (locs, [])
  | n :: ns =>
    let r1 := visitNode frame frameIndex locs n
    let r2 := visitList frame frameIndex r1.1 ns
    (r2.1, r1.2 :: r2.2)
termination_by ns => (sizeOf frame, 0, sizeOf ns)
decreasing_by
  all_goals simp_wf
  all_goals first
    | exact Prod.Lex.left _ _ (lt_trans (lookupChild_sizeOf h) (children_sizeOf frame))
    | exact Prod.Lex.right _ (Prod.Lex.left _ _ (by omega))
    | exact Prod.Lex.right _ (Prod.Lex.right _ (by omega))
end

mutual
/-- Plain-text rendering of a walked document, abstracting
`yamlDocument.toString({ indentSeq: false })` in `_build`: scalars print
their value, pairs print `key: value`, sequences prepend `- ` per item. -/
def YNode.render : YNode → String
  | .scalar s => s
  | .pair k v => YNode.render k ++ ": " ++ YNode.render v
  | .seq items => String.intercalate "\n" (YNode.renderSeq items)
  | .map items => String.intercalate "\n" (YNode.renderAll items)

/-- Rendering of sequence items, each behind a `- ` marker. -/
def YNode.renderSeq : List YNode → List String
  | [] => []
  | n :: ns => ("- " ++ YNode.render n) :: YNode.renderSeq ns

/-- Rendering of map items, one per line. -/
def YNode.renderAll : List YNode → List String
  | [] => []
  | n :: ns => YNode.render n :: YNode.renderAll ns
end

/-- What `_build` produces: the frame-locator list accumulated by the
recursive `_snapshotFrame` walk starting from an empty list, together with
the walked document for the root page. -/
def buildResult (page : LiveFrame) : List LiveFrame × YNode :=
  snapshotFrame [] page

/-- The frame-locator list accumulated during `_build` (root page at index
0, every recursively captured frame at the next index, in push order). -/
def buildFrameLocators (page : LiveFrame) : List LiveFrame :=
  (buildResult page).1

/-- The `_text` assembled by `_build` from the walked document. -/
def buildText (page : LiveFrame) : String :=
  String.intercalate "\n"
    ["- Page Snapshot", "```yaml", (YNode.render (buildResult page).2).trim, "```"]

/-- The static `create` method: run `_build(page)` (which pushes the root
page and every recursively captured frame onto `_frameLocators`), and then
execute `snapshot._frameLocators = [page]`, which reassigns the list to
hold the root page only — the handles accumulated during the build are
discarded.  The snapshot is returned connected. -/
def PageSnapshot.create (page : LiveFrame) : PageSnapshot :=
  { text := buildText page
    frameLocators := [page]
    isDisconnected := false }

/-- Generic association-list lookup (first match wins), the model of both
JavaScript object property access and `Map.get`. -/
def aget {α : Type} : List (String × α) → String → Option α
  | [], _ => none
  | (k, v) :: rest, key => if k = key then some v else aget rest key

/-- The `CachedSession` record of redis.ts. -/
structure CachedSession where
  currentSessionId : String
deriving DecidableEq, Repr

/-- The `CachedResource` record of redis.ts (`format` is 'png' or 'jpeg'). -/
structure CachedResource where
  format : String
  bytes : String
  uri : String
deriving DecidableEq, Repr

/-- The `CachedSnapshot` record of redis.ts. -/
structure CachedSnapshot where
  sessionId : String
  serializedData : String
deriving DecidableEq, Repr

/-- The per-tenant context hash (`CachedContext`): the stored hash fields
and equally the caller's partial projection passed to `saveCtx`.  The JSON
encode/decode of each field between the structured value and its stored
string is abstracted away; a `none` field models both an absent hash field
and an absent key of the partial.  `meta` holds the `updatedAt` stamp. -/
structure CachedContext where
  session : Option CachedSession
  resources : Option (List (String × CachedResource))
  snapshots : Option (List CachedSnapshot)
  meta : Option Nat
deriving DecidableEq, Repr

/-- The keys of `existing` with each value overridden by the value `n`
holds for that key, if any: the `...existingResources` part of the object
spread `{ ...existingResources, ...context.resources }`. -/
def overrideAll {α : Type} : List (String × α) → List (String × α) → List (String × α)
  | [], _ => []
  | (k, v) :: rest, n =>
    (k, match aget n k with | some w => w | none => v) :: overrideAll rest n

/-- The entries of `n` whose keys are new: the `...context.resources` part
of the object spread. -/
def newEntries {α : Type} (e n : List (String × α)) : List (String × α) :=
  n.filter (fun p => (aget e p.1).isNone)

/-- JavaScript object spread `{ ...e, ...n }` on string-keyed records. -/
def spreadMerge {α : Type} (e n : List (String × α)) : List (String × α) :=
  overrideAll e n ++ newEntries e n

/-- One step of the snapshot merge loop of `saveCtx`: `findIndex` an entry
with the same `sessionId` and replace it in place, else push the new entry
at the end (rendered recursively: replacing the first match and keeping
the tail is exactly `mergedSnapshots[existingIndex] = newSnapshot`). -/
def upsertSnapshot : List CachedSnapshot → CachedSnapshot → List CachedSnapshot
  | [], s => [s]
  | t :: rest, s =>
    if t.sessionId = s.sessionId then s :: rest else t :: upsertSnapshot rest s

/-- The snapshot merge loop of `saveCtx` over all entries of the partial. -/
def mergeSnapshots (e n : List CachedSnapshot) : List CachedSnapshot :=
  n.foldl upsertSnapshot e

/-- First stored snapshot entry for a session id. -/
def findBySession : List CachedSnapshot → String → Option CachedSnapshot
  | [], _ => none
  | t :: rest, sid => if t.sessionId = sid then some t else findBySession rest sid

/-- The merge performed by one successful, non-conflicting `saveCtx`
transaction body (redis.ts lines 186-233): each provided field of the
caller's partial is merged into the stored hash (`session` by object
spread over a single-field record, `resources` by object spread,
`snapshots` by the upsert loop); a field the partial does not provide is
not written; the `meta` field is unconditionally rewritten with a fresh
`updatedAt` stamp (`Date.now()`, passed in as `now`). -/
def saveCtxMerge (stored patch : CachedContext) (now : Nat) : CachedContext :=
  { session :=
      match patch.session with
      | some s => some s
      | none => stored.session
    resources :=
      match patch.resources with
      | some n => some (spreadMerge (stored.resources.getD []) n)
      | none => stored.resources
    snapshots :=
      match patch.snapshots with
      | some n => some (mergeSnapshots (stored.snapshots.getD []) n)
      | none => stored.snapshots
    meta := some now }

/-- `Map.delete` on the session-keyed snapshot map: drop the entry stored
under the key. -/
def mapDelete {α : Type} : List (String × α) → String → List (String × α)
  | [], _ => []
  | (k0, v0) :: rest, k =>
    if k0 = k then mapDelete rest k else (k0, v0) :: mapDelete rest k

/-- `Map.set` on the session-keyed snapshot map: replace the entry in place
when the key is present, append otherwise. -/
def mapSet {α : Type} : List (String × α) → String → α → List (String × α)
  | [], k, v => [(k, v)]
  | (k0, v0) :: rest, k, v =>
    if k0 = k then (k, v) :: rest else (k0, v0) :: mapSet rest k v

/-- A content item of a `CallToolResult`: a text block (carrying the extra
`toolName` property when produced by `createErrorResult`) or an image. -/
inductive ContentItem where
  | text (content : String) (toolName : Option String)
  | image (data : String) (mimeType : String)
deriving DecidableEq, Repr

/-- The `CallToolResult` shape `run` returns. -/
structure CallToolResult where
  content : List ContentItem
  isError : Bool
deriving Repr

/-- The mutable state of a `Context` instance that `run` touches:
`currentSessionId` and the session-keyed `latestSnapshots` map. -/
structure ContextState where
  currentSessionId : String
  latestSnapshots : List (String × PageSnapshot)

/-- Raw, not yet validated tool arguments (opaque payload: the tools'
declared zod schemas interpret it). -/
structure RawArgs where
  raw : String

/-- The validated arguments as far as `run` itself reads them: only the
optional `sessionId` field is consulted. -/
structure ValidatedArgs where
  sessionId : Option String

/-- What a tool action returns (`ToolActionResult`): optionally a list of
content items. -/
structure ActionOutput where
  content : Option (List ContentItem)

/-- What `tool.handle` returns: optionally an action closure, whose later
invocation either rejects (`Except.error`, the thrown message) or yields an
output, and the `captureSnapshot` flag. -/
structure HandleOutcome where
  action : Option (Except String ActionOutput)
  captureSnapshot : Bool

/-- A tool as `run` consumes it.  Modelled from the spec: the concrete tool
definitions (schemas and handlers) are not part of the embedded sources;
per the external-interface contract a tool is `{name, inputSchema, handler}`
where validation yields validated args or aggregated issue messages, and
the handler returns an action closure plus a capture flag without mutating
the context. -/
structure ToolModel where
  name : String
  parse : RawArgs → Except (List String) ValidatedArgs
  handle : Except String HandleOutcome

/-- A live page as the run-level model sees it: the outcomes of `url()` and
`title()` (`Except.error` models a throw/rejection) and the frame tree the
snapshot capture walks. -/
structure LivePage where
  urlResult : Except Unit String
  titleResult : Except Unit String
  tree : LiveFrame

/-- A browser session as returned by session resolution: its page plus the
liveness of page and browser. -/
structure SessionObj where
  page : LivePage
  pageOk : Bool
  browserOk : Bool

/-- The async environment of one `run` call.  `getSession` is modelled from
the spec: the session registry resolves a session id to a session object or
`null` (`resolvePage(sessionId) -> PageHandle | null` with `isClosed` /
`isConnected` liveness checks); it does not throw.  `captureFails` models
the defensive catch around `PageSnapshot.create` in `captureSnapshot`. -/
structure RunEnv where
  getSession : String → Option SessionObj
  captureFails : String → Bool

/-- The session-validity check of `run` step 3: a session exists, its page
is open and its browser connected. -/
def sessionValid (env : RunEnv) (sid : String) : Bool :=
  match env.getSession sid with
  | some s => s.pageOk && s.browserOk
  | none => false

/-- The `getActivePage` method: resolve the session and return its page if
open (the source's second, identical resolution attempt collapses since the
oracle is deterministic). -/
def getActivePage (env : RunEnv) (sid : String) : Option LivePage :=
  match env.getSession sid with
  | some s => if s.pageOk then some s.page else none
  | none => none

/-- The `clearLatestSnapshot` method: drop the map entry of the currently
active session. -/
def clearLatestSnapshot (st : ContextState) : ContextState :=
  { st with latestSnapshots := mapDelete st.latestSnapshots st.currentSessionId }

/-- The `captureSnapshot` method: resolve the active page (failure clears
the stale entry and yields nothing); then create a `PageSnapshot` (a create
failure likewise clears and yields nothing) and store it under the current
session id. -/
def captureSnapshotM (env : RunEnv) (st : ContextState) :
    ContextState × Option PageSnapshot :=
  match getActivePage env st.currentSessionId with
  | none => (clearLatestSnapshot st, none)
  | some page =>
    if env.captureFails st.currentSessionId then (clearLatestSnapshot st, none)
    else
      let snap := PageSnapshot.create page.tree
      ({ st with latestSnapshots := mapSet st.latestSnapshots st.currentSessionId snap },
       some snap)

/-- The private `createErrorResult` helper. -/
def createErrorResult (message toolName : String) : CallToolResult :=
  { content := [ContentItem.text ("Error: " ++ message) (some toolName)], isError := true }

/-- Step 2 of `run`: when the validated args carry a truthy `sessionId`
different from the current one, switch `currentSessionId` to it and then
call `clearLatestSnapshot()` — which, running after the assignment, deletes
the map entry keyed by the new session id. -/
def switchStep (st : ContextState) (validatedArgs : ValidatedArgs) : ContextState :=
  match validatedArgs.sessionId with
  | some sid =>
    if sid != "" && sid != st.currentSessionId then
      clearLatestSnapshot { st with currentSessionId := sid }
    else st
  | none => st

/-- The rollback in the action-error catch of `run`: restore the pre-call
session id if it was switched, unless the tool is the session-creation
tool. -/
def rollbackState (st : ContextState) (previousSessionId toolName : String) : ContextState :=
  if st.currentSessionId != previousSessionId && toolName != "browserbase_session_create" then
    { st with currentSessionId := previousSessionId }
  else st

/-- The snapshot portion of `run`'s `finally` block on the success path:
capture a post-action snapshot when the flag is set; otherwise, for the
`browserbase_snapshot` tool, fall back to the stored latest snapshot of the
current session. -/
def capturePhase (env : RunEnv) (toolName : String) (flag : Bool) (st : ContextState) :
    ContextState × Option PageSnapshot :=
  if flag then captureSnapshotM env st
  else if toolName = "browserbase_snapshot" then
    (st, aget st.latestSnapshots st.currentSessionId)
  else (st, none)

/-- Item 1 of the success assembly: the action's own content items, or the
generic success line when the action produced none. -/
def mainContent (toolName : String) (out : ActionOutput) : List ContentItem :=
  match out.content with
  | some items =>
    if items.length > 0 then items
    else [ContentItem.text (toolName ++ " action completed successfully.") none]
  | none => [ContentItem.text (toolName ++ " action completed successfully.") none]

/-- The URL/title lines of the success assembly: both lines when the page
is reachable and `url()` returns (a failing `title()` degrades to an error
placeholder), a page-state error marker when `url()` throws, and the
page-unavailable marker when no active page resolves. -/
def pageInfoParts (env : RunEnv) (sid : String) : List String :=
  match getActivePage env sid with
  | some page =>
    match page.urlResult with
    | .error _ => ["- [Error retrieving page state after action]"]
    | .ok url =>
      let title := match page.titleResult with
        | .ok t => t
        | .error _ => "[Error retrieving title]"
      ["- Page URL: " ++ url, "- Page Title: " ++ title]
  | none => ["- [Page unavailable after action]"]

/-- The snapshot line of the success assembly: the snapshot text in a yaml
fence, or the no-snapshot marker. -/
def snapshotPart (postSnapshot : Option PageSnapshot) : String :=
  match postSnapshot with
  | some s => "- Page Snapshot\n```yaml\n" ++ s.text ++ "\n```\n"
  | none => "- [No relevant snapshot available after action]"

/-- The success-path result assembly of `run` (steps 1-3 of the `finally`
block): action content (or generic success line), then one appended text
item holding the URL/title and snapshot information joined with the
literal two-character `\n` separator the source uses there. -/
def assemble (env : RunEnv) (toolName : String) (out : ActionOutput) (st : ContextState)
    (postSnapshot : Option PageSnapshot) : CallToolResult :=
  let finalContentItems := mainContent toolName out
  let additionalInfoParts := pageInfoParts env st.currentSessionId ++ [snapshotPart postSnapshot]
  let additionalInfoText :=
    (if finalContentItems.length > 0 then "\\n\\n" else "") ++
      String.intercalate "\\n" additionalInfoParts
  { content := finalContentItems ++ [ContentItem.text additionalInfoText none]
    isError := false }

/-- The observable outcome of one `run` call: the returned result, the
context state after the call, whether `tool.handle` and the action closure
were invoked, and the `postActionSnapshot` value at assembly time. -/
structure RunOutput where
  result : CallToolResult
  state : ContextState
  handleInvoked : Bool
  actionInvoked : Bool
  postSnapshot : Option PageSnapshot

/-- The `Context.run` method as a pure state-passing function: validate the
raw args (failure returns the aggregated issue messages with no side
effect); switch the session pointer when a different session id is named;
for tools other than the session-creation tool, require a valid session and
on failure roll the switch back and return an error; invoke the handler to
obtain the action and capture flag; run the action (a throw from handler,
missing action, or action produces an `Execution failed:` error result and
rolls the switch back for non-creation tools); on success optionally
capture a post-action snapshot (or fall back to the stored one for the
snapshot tool) and assemble the final result. -/
def runTool (env : RunEnv) (tool : ToolModel) (args : RawArgs) (st : ContextState) : RunOutput :=
  let toolName := tool.name
  match tool.parse args with
  | .error issues =>
    { result := createErrorResult
        ("Input validation failed: " ++ String.intercalate ", " issues) toolName
      state := st, handleInvoked := false, actionInvoked := false, postSnapshot := none }
  | .ok validatedArgs =>
    let previousSessionId := st.currentSessionId
    let st1 := switchStep st validatedArgs
    if toolName != "browserbase_session_create" && !(sessionValid env st1.currentSessionId) then
      let st2 :=
        if st1.currentSessionId != previousSessionId then
          { st1 with currentSessionId := previousSessionId }
        else st1
      { result := createErrorResult
          ("Error retrieving or validating session " ++ st2.currentSessionId ++ ": Session " ++
            st2.currentSessionId ++ " is invalid or browser/page is not available.") toolName
        state := st2, handleInvoked := false, actionInvoked := false, postSnapshot := none }
    else
      match tool.handle with
      | .error msg =>
        { result := createErrorResult ("Execution failed: " ++ msg) toolName
          state := rollbackState st1 previousSessionId toolName
          handleInvoked := true, actionInvoked := false, postSnapshot := none }
      | .ok hr =>
        match hr.action with
        | none =>
          { result := createErrorResult
              ("Execution failed: Tool " ++ toolName ++ " handled without action.") toolName
            state := rollbackState st1 previousSessionId toolName
            handleInvoked := true, actionInvoked := false, postSnapshot := none }
        | some (.error msg) =>
          { result := createErrorResult ("Execution failed: " ++ msg) toolName
            state := rollbackState st1 previousSessionId toolName
            handleInvoked := true, actionInvoked := true, postSnapshot := none }
        | some (.ok out) =>
          let cp := capturePhase env toolName hr.captureSnapshot st1
          { result := assemble env toolName out cp.1 cp.2
            state := cp.1, handleInvoked := true, actionInvoked := true, postSnapshot := cp.2 }

theorem aget_mapDelete_self {α : Type} (m : List (String × α)) (k : String) :
    aget (mapDelete m k) k = none := by
  induction m with
  | nil => rfl
  | cons p rest ih =>
    obtain ⟨k0, v0⟩ := p
    by_cases h : k0 = k
    · simpa [mapDelete, h] using ih
    · simpa [mapDelete, aget, h] using ih

theorem aget_mapDelete_ne {α : Type} (m : List (String × α)) {k k' : String}
    (h : k' ≠ k) : aget (mapDelete m k) k' = aget m k' := by
  induction m with
  | nil => rfl
  | cons p rest ih =>
    obtain ⟨k0, v0⟩ := p
    by_cases h0 : k0 = k
    · simpa [mapDelete, aget, h0, Ne.symm h] using ih
    · by_cases h1 : k0 = k'
      · simp [mapDelete, aget, h0, h1, h]
      · simpa [mapDelete, aget, h0, h1] using ih

theorem aget_mapSet_self {α : Type} (m : List (String × α)) (k : String) (v : α) :
    aget (mapSet m k v) k = some v := by
  induction m with
  | nil => simp [mapSet, aget]
  | cons p rest ih =>
    obtain ⟨k0, v0⟩ := p
    by_cases h0 : k0 = k
    · simp [mapSet, aget, h0]
    · simpa [mapSet, aget, h0] using ih

theorem aget_mapSet_ne {α : Type} (m : List (String × α)) {k k' : String} (v : α)
    (h : k' ≠ k) : aget (mapSet m k v) k' = aget m k' := by
  induction m with
  | nil => simp [mapSet, aget, Ne.symm h]
  | cons p rest ih =>
    obtain ⟨k0, v0⟩ := p
    by_cases h0 : k0 = k
    · have hne : ¬ (k = k') := fun hh => h hh.symm
      simp [mapSet, aget, h0, hne]
    · by_cases h1 : k0 = k'
      · simp [mapSet, aget, h0, h1, h]
      · simpa [mapSet, aget, h0, h1] using ih

theorem captureSnapshotM_currentSessionId (env : RunEnv) (st : ContextState) :
    ((captureSnapshotM env st).1).currentSessionId = st.currentSessionId := by
  unfold captureSnapshotM
  cases getActivePage env st.currentSessionId with
  | none => rfl
  | some page =>
    by_cases h : env.captureFails st.currentSessionId
    · simp [h, clearLatestSnapshot]
    · simp [h]

theorem captureSnapshotM_aget_ne (env : RunEnv) (st : ContextState) {k : String}
    (h : k ≠ st.currentSessionId) :
    aget ((captureSnapshotM env st).1).latestSnapshots k = aget st.latestSnapshots k := by
  unfold captureSnapshotM
  cases getActivePage env st.currentSessionId with
  | none => simp [clearLatestSnapshot, aget_mapDelete_ne _ h]
  | some page =>
    by_cases hf : env.captureFails st.currentSessionId
    · simp [hf, clearLatestSnapshot, aget_mapDelete_ne _ h]
    · simp [hf, aget_mapSet_ne _ _ h]

theorem captureSnapshotM_none_state (env : RunEnv) (st : ContextState)
    (h : (captureSnapshotM env st).2 = none) :
    (captureSnapshotM env st).1 = clearLatestSnapshot st := by
  unfold captureSnapshotM at h ⊢
  cases hp : getActivePage env st.currentSessionId with
  | none => simp [hp]
  | some page =>
    rw [hp] at h
    by_cases hf : env.captureFails st.currentSessionId
    · simp [hp, hf]
    · simp [hf] at h

theorem capturePhase_currentSessionId (env : RunEnv) (n : String) (f : Bool)
    (st : ContextState) :
    ((capturePhase env n f st).1).currentSessionId = st.currentSessionId := by
  unfold capturePhase
  by_cases hf : f
  · simp [hf, captureSnapshotM_currentSessionId]
  · by_cases hn : n = "browserbase_snapshot" <;> simp [hf, hn]

theorem capturePhase_aget_ne (env : RunEnv) (n : String) (f : Bool) (st : ContextState)
    {k : String} (h : k ≠ st.currentSessionId) :
    aget ((capturePhase env n f st).1).latestSnapshots k = aget st.latestSnapshots k := by
  unfold capturePhase
  by_cases hf : f
  · simp [hf, captureSnapshotM_aget_ne env st h]
  · by_cases hn : n = "browserbase_snapshot" <;> simp [hf, hn]

/-- Fixture: a stored snapshot for session A. -/
def snapA : PageSnapshot :=
  { text := "snapshot of A", frameLocators := [], isDisconnected := true }

/-- Fixture: a stored snapshot for session B. -/
def snapB : PageSnapshot :=
  { text := "snapshot of B", frameLocators := [], isDisconnected := true }

/-- Fixture: an opaque raw-argument payload. -/
def args0 : RawArgs := { raw := "args" }

/-- Fixture: an environment in which no session resolves. -/
def envDead : RunEnv := { getSession := fun _ => none, captureFails := fun _ => false }

/-- Fixture: a minimal live frame tree. -/
def pageTree0 : LiveFrame := .mk (.ok (some (.scalar "heading \"Example\" [ref=e1]"))) []

/-- Fixture: a reachable page with working `url()` and `title()`. -/
def livePage0 : LivePage :=
  { urlResult := .ok "https://example.com", titleResult := .ok "Example", tree := pageTree0 }

/-- Fixture: an environment in which every session resolves to a live page
and connected browser. -/
def envLive : RunEnv :=
  { getSession := fun _ => some { page := livePage0, pageOk := true, browserOk := true }
    captureFails := fun _ => false }

/-- Fixture: a context state on session A with stored snapshots for A and B. -/
def stAB : ContextState :=
  { currentSessionId := "A", latestSnapshots := [("A", snapA), ("B", snapB)] }

/-- Fixture: a tool whose schema validation rejects the arguments. -/
def toolBadArgs : ToolModel :=
  { name := "browserbase_click"
    parse := fun _ => .error ["sessionId must be a string", "ref is required"]
    handle := .error "handle not reached" }

/-- C2: for every run call whose arguments fail the tool's declared
input-schema validation, `run` returns `isError = true` carrying the
aggregated validation messages, with no side effect: `currentSessionId` is
not mutated, the snapshot map is untouched (so no entry is cleared), and
the tool's handler and action are never invoked. -/
theorem run_validation_failure (env : RunEnv) (tool : ToolModel) (args : RawArgs)
    (st : ContextState) (issues : List String)
    (h : tool.parse args = .error issues) :
    (runTool env tool args st).result.isError = true ∧
    (runTool env tool args st).result.content =
      [ContentItem.text ("Error: Input validation failed: " ++ String.intercalate ", " issues)
        (some tool.name)] ∧
    (runTool env tool args st).state.currentSessionId = st.currentSessionId ∧
    (runTool env tool args st).state.latestSnapshots = st.latestSnapshots ∧
    (runTool env tool args st).handleInvoked = false ∧
    (runTool env tool args st).actionInvoked = false := by
  simp [runTool, h, createErrorResult]
  rw [← String.append_assoc]
  rfl

/-- Witness for C2 at a concrete failing call. -/
theorem run_validation_failure_witness :
    (runTool envDead toolBadArgs args0 stAB).result.isError = true ∧
    (runTool envDead toolBadArgs args0 stAB).state.latestSnapshots = stAB.latestSnapshots ∧
    (runTool envDead toolBadArgs args0 stAB).handleInvoked = false := by
  have h := run_validation_failure envDead toolBadArgs args0 stAB
    ["sessionId must be a string", "ref is required"] rfl
  exact ⟨h.1, h.2.2.2.1, h.2.2.2.2.1⟩

theorem rollbackState_latestSnapshots (st : ContextState) (p n : String) :
    (rollbackState st p n).latestSnapshots = st.latestSnapshots := by
  unfold rollbackState
  split <;> rfl

theorem rollbackState_currentSessionId (st : ContextState) (p n : String)
    (h : n ≠ "browserbase_session_create") :
    (rollbackState st p n).currentSessionId = p := by
  unfold rollbackState
  split
  · rfl
  · rename_i hc
    simp [h] at hc
    exact hc

theorem switchStep_eq (st : ContextState) (va : ValidatedArgs) (sid : String)
    (hsid : va.sessionId = some sid) (hne : sid ≠ "") (hdiff : sid ≠ st.currentSessionId) :
    switchStep st va =
      { currentSessionId := sid, latestSnapshots := mapDelete st.latestSnapshots sid } := by
  simp [switchStep, hsid, hne, hdiff, clearLatestSnapshot]

/-- Fixture: a tool (not the session-creation tool) whose validated args
name session B and whose action succeeds without content. -/
def toolNavB : ToolModel :=
  { name := "browserbase_navigate"
    parse := fun _ => .ok { sessionId := some "B" }
    handle := .ok { action := some (.ok { content := none }), captureSnapshot := false } }

/-- Counterexample to C6 as stated: starting on session A with stored
snapshots for both A and B, a call switching to session B deletes the
snapshot-map entry stored under the newly targeted id B (the clear runs
after the pointer switch), so switching back later finds nothing — the
claim asserts that entry is retained. -/
theorem run_switch_clears_target_counterexample :
    aget stAB.latestSnapshots "B" = some snapB ∧
    (runTool envDead toolNavB args0 stAB).state.currentSessionId = "A" ∧
    aget (runTool envDead toolNavB args0 stAB).state.latestSnapshots "B" = none := by
  exact ⟨rfl, rfl, rfl⟩

/-- C6 (amended): when `run` switches `currentSessionId` to a different
session named by the validated args, the snapshot map retains the entry
stored under every session id other than the newly targeted one — in
particular the just-switched-from session's entry — while the entry under
the newly targeted session id is cleared by the switch (the clear runs
after the pointer assignment, keyed by the new id) and is still absent
whenever the call returns an error result. -/
theorem run_switch_snapshot_map (env : RunEnv) (tool : ToolModel) (args : RawArgs)
    (st : ContextState) (va : ValidatedArgs) (sid : String)
    (hparse : tool.parse args = .ok va) (hsid : va.sessionId = some sid)
    (hne : sid ≠ "") (hdiff : sid ≠ st.currentSessionId) :
    (∀ k, k ≠ sid →
      aget (runTool env tool args st).state.latestSnapshots k = aget st.latestSnapshots k) ∧
    ((runTool env tool args st).result.isError = true →
      aget (runTool env tool args st).state.latestSnapshots sid = none) := by
  have hswitch := switchStep_eq st va sid hsid hne hdiff
  simp only [runTool, hparse, hswitch]
  split
  · split
    · exact ⟨fun k hk => by simp [aget_mapDelete_ne _ hk],
        fun _ => by simp [aget_mapDelete_self]⟩
    · exact ⟨fun k hk => by simp [aget_mapDelete_ne _ hk],
        fun _ => by simp [aget_mapDelete_self]⟩
  · split
    · exact ⟨fun k hk => by simp [rollbackState_latestSnapshots, aget_mapDelete_ne _ hk],
        fun _ => by simp [rollbackState_latestSnapshots, aget_mapDelete_self]⟩
    · split
      · exact ⟨fun k hk => by simp [rollbackState_latestSnapshots, aget_mapDelete_ne _ hk],
          fun _ => by simp [rollbackState_latestSnapshots, aget_mapDelete_self]⟩
      · exact ⟨fun k hk => by simp [rollbackState_latestSnapshots, aget_mapDelete_ne _ hk],
          fun _ => by simp [rollbackState_latestSnapshots, aget_mapDelete_self]⟩
      · constructor
        · intro k hk
          rw [capturePhase_aget_ne _ _ _ _ hk]
          simp [aget_mapDelete_ne _ hk]
        · intro hErr
          simp [assemble] at hErr

/-- Witness for C6 (amended) at a concrete switching call: the
switched-from session A keeps its entry, the targeted session B loses its
entry on the error return. -/
theorem run_switch_snapshot_map_witness :
    aget (runTool envDead toolNavB args0 stAB).state.latestSnapshots "A" = some snapA ∧
    aget (runTool envDead toolNavB args0 stAB).state.latestSnapshots "B" = none := by
  have h := run_switch_snapshot_map envDead toolNavB args0 stAB
    { sessionId := some "B" } "B" rfl rfl (by decide) (by decide)
  exact ⟨(h.1 "A" (by decide)).trans rfl, h.2 rfl⟩

/-- Fixture: a session-creation tool call naming a fresh session id whose
action then throws (a Browserbase API failure). -/
def toolCreateThrow : ToolModel :=
  { name := "browserbase_session_create"
    parse := fun _ => .ok { sessionId := some "X" }
    handle := .ok { action := some (.error "Browserbase API error"), captureSnapshot := false } }

/-- Fixture: a context on the default session with no stored snapshots. -/
def stDefault : ContextState := { currentSessionId := "default", latestSnapshots := [] }

/-- Counterexample to C1 as stated: for the session-creation tool, an
action throw after a session-id switch is not rolled back — the rollback in
the action-error catch explicitly excludes `browserbase_session_create` —
so `currentSessionId` remains the switched-to value "X" although the call
returns an error result. -/
theorem run_create_action_throw_keeps_switch :
    stDefault.currentSessionId = "default" ∧
    (runTool envDead toolCreateThrow args0 stDefault).state.currentSessionId = "X" ∧
    (runTool envDead toolCreateThrow args0 stDefault).result.isError = true ∧
    (runTool envDead toolCreateThrow args0 stDefault).state.currentSessionId ≠
      stDefault.currentSessionId := by
  refine ⟨rfl, rfl, rfl, ?_⟩
  decide

/-- C1 (amended): for every run call whose validated args name a sessionId
different from the current one, if session resolution fails (for any tool
other than the session-creation tool) or the tool's action throws and the
tool is not the session-creation tool, then after `run` returns,
`currentSessionId` equals its pre-call value and the result has
`isError = true`; for the session-creation tool an action throw leaves the
switched session id in place. -/
theorem run_rollback (env : RunEnv) (tool : ToolModel) (args : RawArgs)
    (st : ContextState) (va : ValidatedArgs) (sid : String) (hr : HandleOutcome) (msg : String)
    (hname : tool.name ≠ "browserbase_session_create")
    (hparse : tool.parse args = .ok va) (hsid : va.sessionId = some sid)
    (hdiff : sid ≠ st.currentSessionId)
    (hfail : sessionValid env (switchStep st va).currentSessionId = false ∨
      (tool.handle = .ok hr ∧ hr.action = some (.error msg))) :
    (runTool env tool args st).state.currentSessionId = st.currentSessionId ∧
    (runTool env tool args st).result.isError = true := by
  simp only [runTool, hparse]
  rcases hfail with hsv | ⟨hh, ha⟩
  · have hcond : (tool.name != "browserbase_session_create" &&
        !sessionValid env (switchStep st va).currentSessionId) = true := by
      simp [hname, hsv]
    rw [if_pos hcond]
    constructor
    · split
      · rfl
      · rename_i hc
        simpa using hc
    · rfl
  · split
    · constructor
      · split
        · rfl
        · rename_i hc
          simpa using hc
      · rfl
    · rw [hh]
      simp only [ha]
      exact ⟨rollbackState_currentSessionId _ _ _ hname, rfl⟩

/-- Witness for C1 (amended): a non-creation tool switching to an
unreachable session B is rolled back to A with an error result. -/
theorem run_rollback_witness :
    (runTool envDead toolNavB args0 stAB).state.currentSessionId = "A" ∧
    (runTool envDead toolNavB args0 stAB).result.isError = true := by
  exact run_rollback envDead toolNavB args0 stAB { sessionId := some "B" } "B"
    { action := none, captureSnapshot := false } "" (by decide) rfl rfl (by decide)
    (Or.inl rfl)

theorem mainContent_length_pos (n : String) (out : ActionOutput) :
    0 < (mainContent n out).length := by
  unfold mainContent
  cases out.content with
  | none => simp
  | some items =>
    by_cases h : 0 < items.length
    · simp [h]
    · simp [h]

/-- C9: for every run call where validation succeeds and the action
completes without throwing, the result has `isError = false` and consists
of the action's own content items (or the generic success line when it
produced none) followed by one appended text block that joins the page
URL/title report (or the page-unavailable marker) with the post-action
snapshot text (or the no-snapshot marker). -/
theorem run_success_assembly (env : RunEnv) (tool : ToolModel) (args : RawArgs)
    (st : ContextState) (va : ValidatedArgs) (hr : HandleOutcome) (out : ActionOutput)
    (hparse : tool.parse args = .ok va)
    (hsv : tool.name = "browserbase_session_create" ∨
      sessionValid env (switchStep st va).currentSessionId = true)
    (hh : tool.handle = .ok hr) (ha : hr.action = some (.ok out)) :
    (runTool env tool args st).result.isError = false ∧
    (runTool env tool args st).result.content =
      mainContent tool.name out ++
        [ContentItem.text ("\\n\\n" ++ String.intercalate "\\n"
          (pageInfoParts env (runTool env tool args st).state.currentSessionId ++
            [snapshotPart (runTool env tool args st).postSnapshot])) none] ∧
    (∀ items, out.content = some items → 0 < items.length →
      mainContent tool.name out = items) ∧
    (out.content = none →
      mainContent tool.name out =
        [ContentItem.text (tool.name ++ " action completed successfully.") none]) ∧
    (getActivePage env (runTool env tool args st).state.currentSessionId = none →
      pageInfoParts env (runTool env tool args st).state.currentSessionId =
        ["- [Page unavailable after action]"]) ∧
    (∀ page url,
      getActivePage env (runTool env tool args st).state.currentSessionId = some page →
      page.urlResult = .ok url →
      ∃ t, pageInfoParts env (runTool env tool args st).state.currentSessionId =
        ["- Page URL: " ++ url, "- Page Title: " ++ t]) ∧
    (∀ snap, (runTool env tool args st).postSnapshot = some snap →
      snapshotPart (runTool env tool args st).postSnapshot =
        "- Page Snapshot\n```yaml\n" ++ snap.text ++ "\n```\n") ∧
    ((runTool env tool args st).postSnapshot = none →
      snapshotPart (runTool env tool args st).postSnapshot =
        "- [No relevant snapshot available after action]") := by
  have hcond : (tool.name != "browserbase_session_create" &&
      !sessionValid env (switchStep st va).currentSessionId) = false := by
    rcases hsv with h | h <;> simp [h]
  have hlen := mainContent_length_pos tool.name out
  simp only [runTool, hparse]
  rw [if_neg (by simp [hcond])]
  rw [hh]
  simp only [ha]
  refine ⟨rfl, ?_, ?_, ?_, ?_, ?_, ?_, ?_⟩
  · simp [assemble, hlen]
  · intro items hi hl
    simp [mainContent, hi, hl]
  · intro hnone
    simp [mainContent, hnone]
  · intro hap
    simp [pageInfoParts, hap]
  · intro page url hap hurl
    refine ⟨match page.titleResult with
      | .ok t => t
      | .error _ => "[Error retrieving title]", ?_⟩
    simp [pageInfoParts, hap, hurl]
  · intro snap hs
    simp [snapshotPart, hs]
  · intro hs
    simp [snapshotPart, hs]

/-- Fixture: a successful text-extraction call producing its own content. -/
def toolGetTextOk : ToolModel :=
  { name := "browserbase_get_text"
    parse := fun _ => .ok { sessionId := none }
    handle := .ok { action := some (.ok { content := some [ContentItem.text "Extracted text" none] })
                    captureSnapshot := false } }

/-- Witness for C9 at a concrete successful call against a live page. -/
theorem run_success_assembly_witness :
    (runTool envLive toolGetTextOk args0 stAB).result.isError = false ∧
    (runTool envLive toolGetTextOk args0 stAB).result.content =
      [ContentItem.text "Extracted text" none,
       ContentItem.text ("\\n\\n" ++ String.intercalate "\\n"
         ["- Page URL: https://example.com", "- Page Title: Example",
          "- [No relevant snapshot available after action]"]) none] := by
  have h := run_success_assembly envLive toolGetTextOk args0 stAB { sessionId := none }
    { action := some (.ok { content := some [ContentItem.text "Extracted text" none] })
      captureSnapshot := false }
    { content := some [ContentItem.text "Extracted text" none] }
    rfl (Or.inr rfl) rfl rfl
  refine ⟨h.1, ?_⟩
  rw [h.2.1]
  rfl

/-- C10: when the tool being run is `browserbase_snapshot`, its action
succeeded, and the capture step produced no post-action snapshot during
this call, `run` falls back to the stored latest snapshot of the current
session (when the post-capture snapshot map holds one) and reports that
snapshot's text instead of the no-snapshot marker. -/
theorem run_snapshot_fallback (env : RunEnv) (tool : ToolModel) (args : RawArgs)
    (st : ContextState) (va : ValidatedArgs) (hr : HandleOutcome) (out : ActionOutput)
    (snap : PageSnapshot)
    (hparse : tool.parse args = .ok va)
    (hname : tool.name = "browserbase_snapshot")
    (hsv : sessionValid env (switchStep st va).currentSessionId = true)
    (hh : tool.handle = .ok hr) (ha : hr.action = some (.ok out))
    (hnocap : hr.captureSnapshot = false ∨
      (captureSnapshotM env (switchStep st va)).2 = none)
    (hstored :
      aget ((capturePhase env tool.name hr.captureSnapshot (switchStep st va)).1).latestSnapshots
        ((capturePhase env tool.name hr.captureSnapshot (switchStep st va)).1).currentSessionId =
        some snap) :
    (runTool env tool args st).result.isError = false ∧
    (runTool env tool args st).postSnapshot = some snap ∧
    snapshotPart (runTool env tool args st).postSnapshot =
      "- Page Snapshot\n```yaml\n" ++ snap.text ++ "\n```\n" ∧
    (runTool env tool args st).result.content =
      mainContent tool.name out ++
        [ContentItem.text ("\\n\\n" ++ String.intercalate "\\n"
          (pageInfoParts env (runTool env tool args st).state.currentSessionId ++
            ["- Page Snapshot\n```yaml\n" ++ snap.text ++ "\n```\n"])) none] := by
  have hcp2 : (capturePhase env tool.name hr.captureSnapshot (switchStep st va)).2 = some snap := by
    rcases hnocap with hflag | hcm
    · rw [hflag] at hstored ⊢
      simpa [capturePhase, hname] using hstored
    · by_cases hflag : hr.captureSnapshot = true
      · have h1 := captureSnapshotM_none_state env (switchStep st va) hcm
        rw [hflag] at hstored
        simp only [capturePhase, if_true] at hstored
        rw [h1] at hstored
        simp [clearLatestSnapshot, aget_mapDelete_self] at hstored
      · have hflag' : hr.captureSnapshot = false := by simpa using hflag
        rw [hflag'] at hstored ⊢
        simpa [capturePhase, hname] using hstored
  have hlen := mainContent_length_pos tool.name out
  simp only [runTool, hparse]
  rw [if_neg (by simp [hsv])]
  rw [hh]
  simp only [ha]
  refine ⟨rfl, ?_, ?_, ?_⟩
  · simpa using hcp2
  · simp [snapshotPart, hcp2]
  · simp [assemble, snapshotPart, hcp2, hlen]

/-- Fixture: a `browserbase_snapshot` call whose handler does not request a
fresh capture. -/
def toolSnapFallback : ToolModel :=
  { name := "browserbase_snapshot"
    parse := fun _ => .ok { sessionId := none }
    handle := .ok { action := some (.ok { content := none }), captureSnapshot := false } }

/-- Witness for C10: with a stored snapshot for the current session A and
no capture requested, the stored snapshot is reported in the result. -/
theorem run_snapshot_fallback_witness :
    (runTool envLive toolSnapFallback args0 stAB).postSnapshot = some snapA ∧
    (runTool envLive toolSnapFallback args0 stAB).result.isError = false := by
  have h := run_snapshot_fallback envLive toolSnapFallback args0 stAB { sessionId := none }
    { action := some (.ok { content := none }), captureSnapshot := false }
    { content := none } snapA
    rfl rfl rfl rfl rfl (Or.inl rfl) rfl
  exact ⟨h.2.1, h.1⟩

theorem parseJStr_jsonEscape (cs rest : List Char) :
    parseJStr (jsonEscape cs ++ '"' :: rest) = some (cs, rest) := by
  induction cs with
  | nil => simp [jsonEscape, parseJStr]
  | cons c cs ih =>
    by_cases h1 : c = '"'
    · subst h1
      simp [jsonEscape, parseJStr, jsonUnescape, ih]
    · by_cases h2 : c = '\\'
      · subst h2
        simp [jsonEscape, parseJStr, jsonUnescape, ih]
      · by_cases h3 : c = '\n'
        · subst h3
          simp [jsonEscape, parseJStr, jsonUnescape, ih]
        · by_cases h4 : c = '\t'
          · subst h4
            simp [jsonEscape, parseJStr, jsonUnescape, ih]
          · by_cases h5 : c = '\r'
            · subst h5
              simp [jsonEscape, parseJStr, jsonUnescape, ih]
            · simp [jsonEscape, h1, h2, h3, h4, h5]
              rw [parseJStr]
              simp [h1, h2, ih]
              all_goals simp_all

/-- C3: for every captured snapshot `s`, deserializing `s.serialize`
succeeds and yields a snapshot with the same text that reports
`needsReconnection` until `reconnect` installs the given page as frame
index 0 and clears the flag; and `fromSerialized` is total, returning
`none` (never a fault) on malformed input — any successfully parsed
snapshot starts disconnected. -/
theorem snapshot_serialize_roundtrip :
    (∀ s : PageSnapshot, ∃ s',
      PageSnapshot.fromSerialized (PageSnapshot.serialize s) = some s' ∧
      s'.text = s.text ∧ s'.needsReconnection = true ∧
      ∀ page, (s'.reconnect page).needsReconnection = false ∧
        (s'.reconnect page).frameLocators = [page]) ∧
    (∀ input : String, PageSnapshot.fromSerialized input = none ∨
      ∃ s', PageSnapshot.fromSerialized input = some s' ∧ s'.needsReconnection = true) ∧
    PageSnapshot.fromSerialized "not a snapshot" = none := by
  refine ⟨?_, ?_, rfl⟩
  · intro s
    refine ⟨{ text := s.text, frameLocators := [], isDisconnected := true }, ?_,
      rfl, rfl, fun page => ⟨rfl, rfl⟩⟩
    have h1 : (PageSnapshot.serialize s).data =
        '\x7b' :: '"' :: 't' :: 'e' :: 'x' :: 't' :: '"' :: ':' :: '"' ::
          (jsonEscape s.text.data ++ '"' :: '\x7d' :: []) := rfl
    unfold PageSnapshot.fromSerialized
    rw [h1]
    simp [parseSerialized, parseJStr_jsonEscape]
  · intro input
    unfold PageSnapshot.fromSerialized
    cases h : parseSerialized input.data with
    | none => exact Or.inl rfl
    | some t => exact Or.inr ⟨_, rfl, rfl⟩

/-- C4: `refLocator` parses the optional `f<N>` prefix (frame index 0 when
absent); it returns a descriptive error — never an uncontrolled crash,
being a total function into `Except` — whenever the snapshot is
disconnected, the frame-locator list is empty, or the parsed index is out
of bounds; otherwise it delegates to the frame at index `N` with the local
ref, so an unprefixed ref resolves against frame index 0. -/
theorem refLocator_spec (s : PageSnapshot) (ref : String) :
    (s.isDisconnected = true →
      s.refLocator ref = .error
        "Snapshot is disconnected. Call reconnect() with a live page before using refLocator.") ∧
    (s.isDisconnected = false → s.frameLocators = [] →
      s.refLocator ref = .error
        ("Frame locators not initialized. Cannot find frame for ref '" ++ ref ++ "'.")) ∧
    (s.isDisconnected = false → s.frameLocators ≠ [] →
      s.frameLocators.length ≤ (parseFrameRef ref).1 →
      s.refLocator ref = .error
        ("Validation Error: Frame index " ++ toString (parseFrameRef ref).1 ++
          " derived from ref '" ++ ref ++ "' is out of bounds (found " ++
          toString s.frameLocators.length ++ " frames).")) ∧
    (s.isDisconnected = false → ∀ h : (parseFrameRef ref).1 < s.frameLocators.length,
      s.refLocator ref = .ok
        { frame := s.frameLocators.get ⟨(parseFrameRef ref).1, h⟩
          selector := "aria-ref=" ++ (parseFrameRef ref).2 }) ∧
    ((match ref.data with
      | 'f' :: rest => rest.takeWhile Char.isDigit = []
      | _ => True) → parseFrameRef ref = (0, ref)) := by
  refine ⟨?_, ?_, ?_, ?_, ?_⟩
  · intro h
    simp [PageSnapshot.refLocator, h]
  · intro h1 h2
    simp [PageSnapshot.refLocator, h1, h2]
  · intro h1 h2 h3
    have hlen : ¬ s.frameLocators.length = 0 := by
      intro hh
      exact h2 (List.length_eq_zero.mp hh)
    simp [PageSnapshot.refLocator, h1, hlen, h3]
  · intro h1 h
    have hlen : ¬ s.frameLocators.length = 0 := by omega
    have hle : ¬ s.frameLocators.length ≤ (parseFrameRef ref).1 := by omega
    simp [PageSnapshot.refLocator, h1, hlen, hle, List.getElem?_eq_getElem h]
  · intro h
    unfold parseFrameRef
    cases hd : ref.data with
    | nil => rfl
    | cons c rest =>
      rw [hd] at h
      by_cases hc : c = 'f'
      · subst hc
        simp at h
        simp [h]
      · rw [parseFrameRef.match_1.eq_2]
        intro rest' hh
        injection hh with h1 h2
        exact hc h1

/-- Fixture: a live frame handle standing for a root page. -/
def frameA : LiveFrame := .mk (.ok none) []

/-- Fixture: a live frame handle standing for a nested frame. -/
def frameB : LiveFrame := .mk (.error "nested") []

/-- Fixture: a connected snapshot holding two frame handles. -/
def snapConn : PageSnapshot :=
  { text := "t", frameLocators := [frameA, frameB], isDisconnected := false }

/-- Witness for C4: the disconnected error, the out-of-bounds error, and
successful delegation for an unprefixed and a prefixed ref, at concrete
inputs. -/
theorem refLocator_spec_witness :
    snapA.refLocator "e3" = .error
      "Snapshot is disconnected. Call reconnect() with a live page before using refLocator." ∧
    snapConn.refLocator "f5e1" = .error
      ("Validation Error: Frame index " ++ toString (parseFrameRef "f5e1").1 ++
        " derived from ref 'f5e1' is out of bounds (found " ++
        toString snapConn.frameLocators.length ++ " frames).") ∧
    snapConn.refLocator "e3" = .ok { frame := frameA, selector := "aria-ref=e3" } ∧
    snapConn.refLocator "f1e2" = .ok { frame := frameB, selector := "aria-ref=e2" } ∧
    parseFrameRef "e3" = (0, "e3") := by
  refine ⟨(refLocator_spec snapA "e3").1 rfl, ?_, ?_, ?_, ?_⟩
  · exact (refLocator_spec snapConn "f5e1").2.2.1 rfl (by simp [snapConn]) (by decide)
  · have h := (refLocator_spec snapConn "e3").2.2.2.1 rfl (by decide)
    exact h.trans rfl
  · have h := (refLocator_spec snapConn "f1e2").2.2.2.1 rfl (by decide)
    exact h.trans rfl
  · exact (refLocator_spec snapConn "e3").2.2.2.2 trivial

theorem aget_append {α : Type} (a b : List (String × α)) (k : String) :
    aget (a ++ b) k = (aget a k).or (aget b k) := by
  induction a with
  | nil => simp [aget]
  | cons p rest ih =>
    obtain ⟨k0, v0⟩ := p
    by_cases h : k0 = k <;> simp [aget, h, ih]

theorem aget_overrideAll {α : Type} (e n : List (String × α)) (k : String) :
    aget (overrideAll e n) k = (aget e k).map (fun v => (aget n k).getD v) := by
  induction e with
  | nil => simp [overrideAll, aget]
  | cons p rest ih =>
    obtain ⟨k0, v0⟩ := p
    by_cases h : k0 = k
    · simp [overrideAll, aget, h, ih]
      cases aget n k <;> rfl
    · simp [overrideAll, aget, h, ih]

theorem aget_newEntries {α : Type} (e n : List (String × α)) (k : String) :
    aget (newEntries e n) k = if (aget e k).isSome then none else aget n k := by
  induction n with
  | nil => simp [newEntries, aget]
  | cons p rest ih =>
    obtain ⟨k0, v0⟩ := p
    cases haget : aget e k0 with
    | some w =>
      have hskip : newEntries e ((k0, v0) :: rest) = newEntries e rest := by
        simp [newEntries, List.filter_cons, haget]
      rw [hskip]
      by_cases h : k0 = k
      · subst h
        rw [ih]
        simp [aget, haget]
      · rw [ih]
        simp [aget, h]
    | none =>
      have hkeep : newEntries e ((k0, v0) :: rest) = (k0, v0) :: newEntries e rest := by
        simp [newEntries, List.filter_cons, haget]
      rw [hkeep]
      by_cases h : k0 = k
      · subst h
        simp [aget, haget]
      · simp [aget, h, ih]

theorem aget_spreadMerge {α : Type} (e n : List (String × α)) (k : String) :
    aget (spreadMerge e n) k = (aget n k).or (aget e k) := by
  rw [spreadMerge, aget_append, aget_overrideAll, aget_newEntries]
  cases he : aget e k <;> cases hn : aget n k <;> simp [he, hn]

theorem findBySession_upsert_self (e : List CachedSnapshot) (s : CachedSnapshot) :
    findBySession (upsertSnapshot e s) s.sessionId = some s := by
  induction e with
  | nil => simp [upsertSnapshot, findBySession]
  | cons t rest ih =>
    by_cases h : t.sessionId = s.sessionId
    · simp [upsertSnapshot, h, findBySession]
    · simp [upsertSnapshot, h, findBySession, ih]

theorem findBySession_upsert_ne (e : List CachedSnapshot) (s : CachedSnapshot) {sid : String}
    (h : sid ≠ s.sessionId) :
    findBySession (upsertSnapshot e s) sid = findBySession e sid := by
  induction e with
  | nil => simp [upsertSnapshot, findBySession, Ne.symm h]
  | cons t rest ih =>
    by_cases h0 : t.sessionId = s.sessionId
    · simp [upsertSnapshot, h0, findBySession, Ne.symm h]
    · simp only [upsertSnapshot, h0, if_false, findBySession]
      by_cases h1 : t.sessionId = sid <;> simp [h1, ih]

theorem findBySession_eq_none {l : List CachedSnapshot} {sid : String}
    (h : sid ∉ l.map CachedSnapshot.sessionId) :
    findBySession l sid = none := by
  induction l with
  | nil => rfl
  | cons t rest ih =>
    simp only [List.map_cons, List.mem_cons, not_or] at h
    simp [findBySession, Ne.symm h.1, ih h.2]

theorem findBySession_mergeSnapshots (e n : List CachedSnapshot)
    (hnd : (n.map CachedSnapshot.sessionId).Nodup) (sid : String) :
    findBySession (mergeSnapshots e n) sid =
      (findBySession n sid).or (findBySession e sid) := by
  induction n generalizing e with
  | nil => simp [mergeSnapshots, findBySession]
  | cons s rest ih =>
    simp only [List.map_cons, List.nodup_cons] at hnd
    have hfold : mergeSnapshots e (s :: rest) = mergeSnapshots (upsertSnapshot e s) rest := rfl
    rw [hfold, ih _ hnd.2]
    by_cases h : sid = s.sessionId
    · subst h
      rw [findBySession_eq_none hnd.1]
      simp [findBySession, findBySession_upsert_self]
    · rw [findBySession_upsert_ne e s h]
      simp [findBySession, Ne.symm h]

/-- Fixture: a stored projection hash with all four fields present. -/
def storedHash : CachedContext :=
  { session := some { currentSessionId := "sess-1" }
    resources := some [("shot-1", { format := "png", bytes := "AAA", uri := "mcp://screenshots/shot-1" })]
    snapshots := some [{ sessionId := "sess-1", serializedData := "d1" }]
    meta := some 5 }

/-- Fixture: a partial projection providing no field at all. -/
def emptyPatch : CachedContext :=
  { session := none, resources := none, snapshots := none, meta := none }

/-- Counterexample to C8 as stated: the stored `meta` field, for which the
partial provides nothing, is not left unchanged — every successful save
rewrites it with a fresh `updatedAt` stamp. -/
theorem saveCtx_meta_not_preserved :
    emptyPatch.meta = none ∧
    storedHash.meta = some 5 ∧
    (saveCtxMerge storedHash emptyPatch 6).meta = some 6 ∧
    (saveCtxMerge storedHash emptyPatch 6).meta ≠ storedHash.meta := by
  refine ⟨rfl, rfl, rfl, ?_⟩
  decide

/-- C8 (amended): a successful save merges rather than overwrites: the
partial's session field overwrites the stored one, the resources map
merges key by key (stored names absent from the partial are preserved,
names in the partial take the partial's value), the snapshots list merges
by session id (the partial's entry replaces a stored entry of the same
session id and is appended otherwise), and each of the
session/resources/snapshots fields for which the partial provides nothing
is left unchanged; the `meta` field is refreshed with the save time on
every save. -/
theorem saveCtx_merge_spec (stored patch : CachedContext) (now : Nat) :
    (∀ s, patch.session = some s → (saveCtxMerge stored patch now).session = some s) ∧
    (patch.session = none → (saveCtxMerge stored patch now).session = stored.session) ∧
    (∀ n, patch.resources = some n → ∃ r,
      (saveCtxMerge stored patch now).resources = some r ∧
      ∀ k, aget r k = (aget n k).or (aget (stored.resources.getD []) k)) ∧
    (patch.resources = none → (saveCtxMerge stored patch now).resources = stored.resources) ∧
    (∀ n, patch.snapshots = some n → (n.map CachedSnapshot.sessionId).Nodup → ∃ l,
      (saveCtxMerge stored patch now).snapshots = some l ∧
      ∀ sid, findBySession l sid =
        (findBySession n sid).or (findBySession (stored.snapshots.getD []) sid)) ∧
    (patch.snapshots = none → (saveCtxMerge stored patch now).snapshots = stored.snapshots) ∧
    (saveCtxMerge stored patch now).meta = some now := by
  refine ⟨?_, ?_, ?_, ?_, ?_, ?_, ?_⟩
  · intro s hs
    simp [saveCtxMerge, hs]
  · intro hs
    simp [saveCtxMerge, hs]
  · intro n hn
    refine ⟨spreadMerge (stored.resources.getD []) n, by simp [saveCtxMerge, hn], ?_⟩
    intro k
    exact aget_spreadMerge (stored.resources.getD []) n k
  · intro hn
    simp [saveCtxMerge, hn]
  · intro n hn hnd
    refine ⟨mergeSnapshots (stored.snapshots.getD []) n, by simp [saveCtxMerge, hn], ?_⟩
    intro sid
    exact findBySession_mergeSnapshots (stored.snapshots.getD []) n hnd sid
  · intro hn
    simp [saveCtxMerge, hn]
  · rfl

/-- Fixture: a partial projection touching every content field. -/
def patch1 : CachedContext :=
  { session := some { currentSessionId := "sess-2" }
    resources := some [("shot-2", { format := "jpeg", bytes := "BBB", uri := "mcp://screenshots/shot-2" })]
    snapshots := some [{ sessionId := "sess-1", serializedData := "d2" },
                       { sessionId := "sess-9", serializedData := "d9" }]
    meta := none }

/-- Witness for C8 (amended) at concrete stored and partial projections:
session overwritten, old resource preserved and new one added, the
existing snapshot entry replaced and the new session id appended, meta
stamped with the save time. -/
theorem saveCtx_merge_spec_witness :
    (saveCtxMerge storedHash patch1 7).session = some { currentSessionId := "sess-2" } ∧
    (∃ r, (saveCtxMerge storedHash patch1 7).resources = some r ∧
      aget r "shot-1" =
        some { format := "png", bytes := "AAA", uri := "mcp://screenshots/shot-1" } ∧
      aget r "shot-2" =
        some { format := "jpeg", bytes := "BBB", uri := "mcp://screenshots/shot-2" }) ∧
    (∃ l, (saveCtxMerge storedHash patch1 7).snapshots = some l ∧
      findBySession l "sess-1" = some { sessionId := "sess-1", serializedData := "d2" } ∧
      findBySession l "sess-9" = some { sessionId := "sess-9", serializedData := "d9" }) ∧
    (saveCtxMerge storedHash patch1 7).meta = some 7 := by
  have h := saveCtx_merge_spec storedHash patch1 7
  refine ⟨h.1 _ rfl, ?_, ?_, h.2.2.2.2.2.2⟩
  · obtain ⟨r, hr, hk⟩ := h.2.2.1 _ rfl
    exact ⟨r, hr, (hk "shot-1").trans rfl, (hk "shot-2").trans rfl⟩
  · obtain ⟨l, hl, hsid⟩ := h.2.2.2.2.1 _ rfl (by decide)
    exact ⟨l, hl, (hsid "sess-1").trans rfl, (hsid "sess-9").trans rfl⟩

theorem visitNode_scalar_plain (frame : LiveFrame) (fi : Nat) (locs : List LiveFrame)
    (v : String) (h : leadsWith "iframe ".data v.data = false) :
    visitNode frame fi locs (.scalar v) =
      (locs, .scalar (if fi > 0 then replaceFirst v "[ref=" ("[ref=f" ++ toString fi) else v)) := by
  rw [visitNode]
  simp [h]

theorem visitNode_scalar_iframe_throw (frame : LiveFrame) (fi : Nat) (locs : List LiveFrame)
    (v r : String) (h1 : leadsWith "iframe ".data v.data = true)
    (h2 : extractRef v = some r) (h3 : lookupChild frame.children r = some none) :
    visitNode frame fi locs (.scalar v) =
      (locs, .pair
        (.scalar (if fi > 0 then replaceFirst v "[ref=" ("[ref=f" ++ toString fi) else v))
        (.scalar "<could not take iframe snapshot>")) := by
  rw [visitNode]
  simp only [h1, h2]
  split <;> (split <;> simp_all)

theorem visitNode_scalar_iframe_child (frame : LiveFrame) (fi : Nat) (locs : List LiveFrame)
    (v r : String) (child : LiveFrame) (h1 : leadsWith "iframe ".data v.data = true)
    (h2 : extractRef v = some r) (h3 : lookupChild frame.children r = some (some child)) :
    visitNode frame fi locs (.scalar v) =
      ((snapshotFrame locs child).1, .pair
        (.scalar (if fi > 0 then replaceFirst v "[ref=" ("[ref=f" ++ toString fi) else v))
        (snapshotFrame locs child).2) := by
  rw [visitNode]
  simp only [h1, h2]
  split <;> (split <;> simp_all)

theorem snapshotFrame_error (locs : List LiveFrame) (e : String)
    (ch : List (String × Option LiveFrame)) :
    snapshotFrame locs (.mk (.error e) ch) =
      (locs ++ [.mk (.error e) ch],
        .scalar (if locs.length > 0 then
          replaceFirst ("error: Could not take snapshot. Error: " ++ e) "[ref="
            ("[ref=f" ++ toString locs.length)
        else "error: Could not take snapshot. Error: " ++ e)) := by
  rw [snapshotFrame]
  simp only [LiveFrame.ariaResult]
  rw [visitNode_scalar_plain (LiveFrame.mk (.error e) ch) (locs.length)
    (locs ++ [LiveFrame.mk (.error e) ch])
    ("error: Could not take snapshot. Error: " ++ e) rfl]

theorem visitList_scalars (frame : LiveFrame) (locs : List LiveFrame) (vs : List String)
    (h : ∀ v ∈ vs, leadsWith "iframe ".data v.data = false) :
    visitList frame 0 locs (vs.map YNode.scalar) = (locs, vs.map YNode.scalar) := by
  induction vs generalizing locs with
  | nil => rw [List.map_nil, visitList]
  | cons v vs ih =>
    rw [List.map_cons, visitList]
    rw [visitNode_scalar_plain frame 0 locs v (h v (List.mem_cons_self v vs))]
    simp only [gt_iff_lt, Nat.lt_irrefl, if_false]
    rw [ih locs (fun w hw => h w (List.mem_cons_of_mem v hw))]

theorem visitList_append (frame : LiveFrame) (fi : Nat) (locs : List LiveFrame)
    (as bs : List YNode) :
    visitList frame fi locs (as ++ bs) =
      ((visitList frame fi (visitList frame fi locs as).1 bs).1,
        (visitList frame fi locs as).2 ++
          (visitList frame fi (visitList frame fi locs as).1 bs).2) := by
  induction as generalizing locs with
  | nil => simp [visitList]
  | cons a as ih =>
    simp only [List.cons_append, visitList]
    rw [ih]

theorem replaceFirstChars_noop (pat repl l : List Char)
    (h : afterPat pat l = none) : replaceFirstChars pat repl l = l := by
  induction l with
  | nil => rfl
  | cons c cs ih =>
    by_cases hl : leadsWith pat (c :: cs) = true
    · simp [afterPat, hl] at h
    · simp only [afterPat, hl, Bool.false_eq_true, if_false] at h
      simp [replaceFirstChars, hl, ih h]

theorem replaceFirst_noop (s pat repl : String)
    (h : afterPat pat.data s.data = none) : replaceFirst s pat repl = s := by
  unfold replaceFirst
  rw [replaceFirstChars_noop _ _ _ h]

theorem visitList_single (frame : LiveFrame) (fi : Nat) (locs : List LiveFrame) (n : YNode) :
    visitList frame fi locs [n] =
      ((visitNode frame fi locs n).1, [(visitNode frame fi locs n).2]) := by
  rw [visitList, visitList]

/-- C7: during capture, a failure to snapshot an individual embedded frame
embeds an error placeholder at that frame's position — the
`<could not take iframe snapshot>` pair when the frame locator throws, the
embedded `error:` scalar when the child frame's own aria snapshot rejects —
while the sibling content of the page is captured unchanged; and a capture
whose root aria snapshot rejects still succeeds, embedding the error text,
so the capture as a whole never fails (a failing root page degrades to an
embedded error document rather than a fault). -/
theorem capture_partial_failure :
    (∀ (pres sufs : List String) (iv r : String)
      (children : List (String × Option LiveFrame)),
      (∀ v ∈ pres, leadsWith "iframe ".data v.data = false) →
      (∀ v ∈ sufs, leadsWith "iframe ".data v.data = false) →
      leadsWith "iframe ".data iv.data = true →
      extractRef iv = some r →
      lookupChild children r = some none →
      buildResult (LiveFrame.mk (.ok (some (.seq
          (pres.map YNode.scalar ++ [YNode.scalar iv] ++ sufs.map YNode.scalar)))) children) =
        ([LiveFrame.mk (.ok (some (.seq
            (pres.map YNode.scalar ++ [YNode.scalar iv] ++ sufs.map YNode.scalar)))) children],
          .seq (pres.map YNode.scalar ++
            [YNode.pair (.scalar iv) (.scalar "<could not take iframe snapshot>")] ++
            sufs.map YNode.scalar))) ∧
    (∀ (pres sufs : List String) (iv r e : String)
      (children ch : List (String × Option LiveFrame)),
      (∀ v ∈ pres, leadsWith "iframe ".data v.data = false) →
      (∀ v ∈ sufs, leadsWith "iframe ".data v.data = false) →
      leadsWith "iframe ".data iv.data = true →
      extractRef iv = some r →
      lookupChild children r = some (some (LiveFrame.mk (.error e) ch)) →
      afterPat "[ref=".data ("error: Could not take snapshot. Error: " ++ e).data = none →
      buildResult (LiveFrame.mk (.ok (some (.seq
          (pres.map YNode.scalar ++ [YNode.scalar iv] ++ sufs.map YNode.scalar)))) children) =
        ([LiveFrame.mk (.ok (some (.seq
            (pres.map YNode.scalar ++ [YNode.scalar iv] ++ sufs.map YNode.scalar)))) children,
          LiveFrame.mk (.error e) ch],
          .seq (pres.map YNode.scalar ++
            [YNode.pair (.scalar iv)
              (.scalar ("error: Could not take snapshot. Error: " ++ e))] ++
            sufs.map YNode.scalar))) ∧
    (∀ (e : String) (ch : List (String × Option LiveFrame)),
      buildResult (LiveFrame.mk (.error e) ch) =
        ([LiveFrame.mk (.error e) ch],
          .scalar ("error: Could not take snapshot. Error: " ++ e))) := by
  refine ⟨?_, ?_, ?_⟩
  · intro pres sufs iv r children hpre hsuf hiv href hchild
    have hchild' : lookupChild (LiveFrame.mk (.ok (some (.seq
        (pres.map YNode.scalar ++ [YNode.scalar iv] ++ sufs.map YNode.scalar)))) children).children
        r = some none := by
      simpa [LiveFrame.children] using hchild
    rw [buildResult, snapshotFrame]
    simp only [LiveFrame.ariaResult, List.length_nil, List.nil_append]
    rw [visitNode]
    rw [visitList_append, visitList_append]
    rw [visitList_scalars _ _ _ hpre]
    rw [visitList_single]
    rw [visitNode_scalar_iframe_throw _ 0 _ iv r hiv href hchild']
    simp only [gt_iff_lt, Nat.lt_irrefl, if_false]
    rw [visitList_scalars _ _ _ hsuf]
  · intro pres sufs iv r e children ch hpre hsuf hiv href hchild hnoref
    have hchild' : lookupChild (LiveFrame.mk (.ok (some (.seq
        (pres.map YNode.scalar ++ [YNode.scalar iv] ++ sufs.map YNode.scalar)))) children).children
        r = some (some (LiveFrame.mk (.error e) ch)) := by
      simpa [LiveFrame.children] using hchild
    rw [buildResult, snapshotFrame]
    simp only [LiveFrame.ariaResult, List.length_nil, List.nil_append]
    rw [visitNode]
    rw [visitList_append, visitList_append]
    rw [visitList_scalars _ _ _ hpre]
    rw [visitList_single]
    rw [visitNode_scalar_iframe_child _ 0 _ iv r _ hiv href hchild']
    rw [snapshotFrame_error]
    simp only [List.length_cons, List.length_nil, gt_iff_lt, Nat.lt_irrefl, if_false,
      Nat.zero_lt_one, if_true, Nat.zero_add, zero_add]
    rw [replaceFirst_noop _ _ _ hnoref]
    rw [visitList_scalars _ _ _ hsuf]
    simp
  · intro e ch
    rw [buildResult, snapshotFrame_error]
    simp

/-- Fixture: a page whose only iframe's frame locator throws. -/
def page7 : LiveFrame :=
  .mk (.ok (some (.seq [.scalar "heading [ref=e2]", .scalar "iframe [ref=e5]",
    .scalar "link [ref=e3]"]))) [("e5", none)]

/-- Witness for C7 at a concrete page: the broken iframe degrades to a
placeholder pair while both siblings are captured unchanged. -/
theorem capture_partial_failure_witness :
    buildResult page7 =
      ([page7],
        .seq [.scalar "heading [ref=e2]",
          .pair (.scalar "iframe [ref=e5]") (.scalar "<could not take iframe snapshot>"),
          .scalar "link [ref=e3]"]) := by
  have h := capture_partial_failure.1 ["heading [ref=e2]"] ["link [ref=e3]"]
    "iframe [ref=e5]" "e5" [("e5", none)]
    (by decide) (by decide) (by decide) (by decide) rfl
  exact h

theorem snapshotFrame_ok (locs : List LiveFrame) (frame : LiveFrame) (doc : YNode)
    (h : frame.ariaResult = .ok (some doc)) :
    snapshotFrame locs frame = visitNode frame locs.length (locs ++ [frame]) doc := by
  rw [snapshotFrame, h]

theorem visitList_single_eq (frame : LiveFrame) (fi : Nat) (locs : List LiveFrame)
    (n : YNode) (l : List LiveFrame) (r : YNode)
    (h : visitNode frame fi locs n = (l, r)) :
    visitList frame fi locs [n] = (l, [r]) := by
  rw [visitList_single, h]

theorem visitList_append_eq (frame : LiveFrame) (fi : Nat) (locs : List LiveFrame)
    (as bs : List YNode) (l1 : List LiveFrame) (r1 : List YNode)
    (l2 : List LiveFrame) (r2 : List YNode)
    (h1 : visitList frame fi locs as = (l1, r1))
    (h2 : visitList frame fi l1 bs = (l2, r2)) :
    visitList frame fi locs (as ++ bs) = (l2, r1 ++ r2) := by
  rw [visitList_append, h1]
  show (((visitList frame fi l1 bs).1 : List LiveFrame), r1 ++ (visitList frame fi l1 bs).2) =
    (l2, r1 ++ r2)
  rw [h2]

/-- Fixture: an embedded frame whose snapshot emits a local ref `e1`. -/
def childFrame5 : LiveFrame := .mk (.ok (some (.seq [.scalar "button [ref=e1]"]))) []

/-- Fixture: a root page embedding `childFrame5` behind ref `e5`. -/
def rootPage5 : LiveFrame :=
  .mk (.ok (some (.seq [.scalar "heading [ref=e2]", .scalar "iframe [ref=e5]"])))
    [("e5", some childFrame5)]

/-- C5 evaluated at a page with one embedded frame: the build assigns frame
index 0 to the root and 1 to the child and rewrites the child's refs to
`f1...`, and `_build` accumulates both frame handles — but `create` then
executes `this._frameLocators = [page]`, discarding the child handle, so
the connected snapshot holds one handle only and the emitted `f1e1`
reference fails `refLocator` with the out-of-bounds validation error
instead of resolving. -/
theorem create_drops_frame_handles :
    buildFrameLocators rootPage5 = [rootPage5, childFrame5] ∧
    (buildResult rootPage5).2 =
      .seq [.scalar "heading [ref=e2]",
        .pair (.scalar "iframe [ref=e5]") (.seq [.scalar "button [ref=f1e1]"])] ∧
    (PageSnapshot.create rootPage5).frameLocators = [rootPage5] ∧
    PageSnapshot.refLocator (PageSnapshot.create rootPage5) "f1e1" =
      .error
        "Validation Error: Frame index 1 derived from ref 'f1e1' is out of bounds (found 1 frames)." := by
  have h2 : snapshotFrame [rootPage5] childFrame5 =
      ([rootPage5, childFrame5], .seq [.scalar "button [ref=f1e1]"]) := by
    rw [snapshotFrame_ok [rootPage5] childFrame5 (.seq [.scalar "button [ref=e1]"]) rfl]
    rw [visitNode]
    rw [visitList_single]
    rw [visitNode_scalar_plain _ _ _ _ (by decide)]
    rfl
  have hA : visitNode rootPage5 0 [rootPage5] (.scalar "heading [ref=e2]") =
      ([rootPage5], .scalar "heading [ref=e2]") := by
    rw [visitNode_scalar_plain rootPage5 0 [rootPage5] "heading [ref=e2]" (by decide)]
    rfl
  have hB : visitNode rootPage5 0 [rootPage5] (.scalar "iframe [ref=e5]") =
      ([rootPage5, childFrame5],
        .pair (.scalar "iframe [ref=e5]") (.seq [.scalar "button [ref=f1e1]"])) := by
    rw [visitNode_scalar_iframe_child rootPage5 0 [rootPage5] "iframe [ref=e5]" "e5"
      childFrame5 (by decide) (by decide) rfl]
    rw [h2]
    rfl
  have hL : visitList rootPage5 0 [rootPage5]
      ([YNode.scalar "heading [ref=e2]"] ++ [YNode.scalar "iframe [ref=e5]"]) =
      ([rootPage5, childFrame5],
        [YNode.scalar "heading [ref=e2]",
         YNode.pair (.scalar "iframe [ref=e5]") (.seq [.scalar "button [ref=f1e1]"])]) :=
    visitList_append_eq rootPage5 0 [rootPage5] _ _ _ _ _ _
      (visitList_single_eq rootPage5 0 [rootPage5] _ _ _ hA)
      (visitList_single_eq rootPage5 0 [rootPage5] _ _ _ hB)
  have h3 : buildResult rootPage5 =
      ([rootPage5, childFrame5],
        .seq [.scalar "heading [ref=e2]",
          .pair (.scalar "iframe [ref=e5]") (.seq [.scalar "button [ref=f1e1]"])]) := by
    rw [buildResult, snapshotFrame_ok []
      rootPage5 (.seq [.scalar "heading [ref=e2]", .scalar "iframe [ref=e5]"]) rfl]
    simp only [List.length_nil, List.nil_append]
    rw [visitNode]
    rw [show ([YNode.scalar "heading [ref=e2]", YNode.scalar "iframe [ref=e5]"] : List YNode) =
      [YNode.scalar "heading [ref=e2]"] ++ [YNode.scalar "iframe [ref=e5]"] from rfl]
    rw [hL]
  refine ⟨?_, ?_, rfl, rfl⟩
  · rw [buildFrameLocators, h3]
  · rw [h3]
